import Mathlib

/-!
Shallow embedding of the budget-edge-api worker (three variants of the same
Cloudflare worker: `src/index.ts`, and the drafts `part_000` and `part_001`).
External effects (fetch responses, JSON parse outcomes, KV and auth-library
outcomes) are passed in as explicit parameters; machine state (token cache,
KV store) is threaded explicitly.
-/

/-- Worker environment bindings (secrets and non-secrets), from `Env` in
`src/index.ts` / `part_000` / `types`. The KV namespace binding is modelled
separately as explicit state. -/
structure Env where
  API_KEY : String
  SHEET_ID : String
  SA_EMAIL : String
  SA_PRIVATE_KEY : String
  TX_RANGE : String
  PURPOSE_TAB : String
  ACCOUNT_TAB : String
deriving DecidableEq

/-- An HTTP response as observed by the worker code: `ok`, `status`,
`statusText` and the text body. -/
structure HttpResponse where
  ok : Bool
  status : Nat
  statusText : String
  body : String
deriving DecidableEq

/-- The `/lists` payload shape: `{ purposes, accounts }`. -/
structure ListPayload where
  purposes : List String
  accounts : List String
deriving DecidableEq

/-- One element of the Sheets `batchGet` response `valueRanges` array; its
`values` field is optional, a row-major grid of cells. -/
structure ValueRange where
  values : Option (List (List String))
deriving DecidableEq

/-- The data carried by the error thrown on a non-success Sheets response in
`src/index.ts` (status, statusText and response body are interpolated into
the thrown message). -/
structure GatewayError where
  status : Nat
  statusText : String
  body : String
deriving DecidableEq

/-- An HTTP response produced by a route handler, reduced to the status code
and the `status` field of the JSON body. -/
structure ApiResponse where
  status : Nat
  bodyStatus : String
deriving DecidableEq

/-- The parsed `/add` request body; each field may be absent. The `amount`
is a JS number, modelled as `Int`. -/
structure AddBody where
  date : Option String
  amount : Option Int
  currency : Option String
  description : Option String
  purpose : Option String
  account : Option String
deriving DecidableEq

deriving instance DecidableEq for Except

/-- JS `String.prototype.trim`: strip leading and trailing whitespace. -/
def jsTrim (s : String) : String :=
  ⟨((s.data.dropWhile Char.isWhitespace).reverse.dropWhile Char.isWhitespace).reverse⟩

/-- JS falsiness of an optional string: absent or empty. -/
def falsyStr : Option String → Bool
  | none => true
  | some s => s = ""

/-- Core of `key.replace(/\\n/g, '\n')`: scan left to right, replacing each
backslash-`n` pair by a newline character. -/
def replaceEscCore : List Char → List Char
  | [] => []
  | '\\' :: 'n' :: rest => '\n' :: replaceEscCore rest
  | c :: rest => c :: replaceEscCore rest

/-- `s.replace(/\\n/g, '\n')` on strings. -/
def replaceEscapedNewlines (s : String) : String :=
  ⟨replaceEscCore s.data⟩

/-- Whether a character list still contains a literal backslash-`n` pair. -/
def hasEscSeq : List Char → Bool
  | [] => false
  | '\\' :: 'n' :: _ => true
  | _ :: rest => hasEscSeq rest

namespace IndexTs

/-- The key material handed to the `JWT` constructor in `src/index.ts`
line 32: `env.SA_PRIVATE_KEY.replace(/\\n/g, '\n')`. -/
def preparedKey (env : Env) : String :=
  replaceEscapedNewlines env.SA_PRIVATE_KEY

/-- The per-range cell filter of `src/index.ts` `batchGet` (line 55):
`filter(s => typeof s === 'string' && s.trim() !== '')`; cells are strings
here, so the `typeof` guard is the type of the list. -/
def filterCells (cells : List String) : List String :=
  cells.filter (fun s => jsTrim s ≠ "")

/-- `batchGet` of `src/index.ts` (lines 42-56): on a non-success response it
throws (modelled as `.error` carrying status, statusText and body); otherwise
it flattens and filters each range, defaulting to one empty list per
requested range when `valueRanges` is absent. -/
def batchGet (res : HttpResponse) (valueRanges : Option (List ValueRange))
    (ranges : List String) : Except GatewayError (List (List String)) :=
  if res.ok then
    .ok (match valueRanges with
      | some vrs => vrs.map (fun v => filterCells (v.values.getD []).flatten)
      | none => ranges.map (fun _ => []))
  else
    .error ⟨res.status, res.statusText, res.body⟩

/-- `appendRow` of `src/index.ts` (lines 58-72): throws on a non-success
response, carrying status, statusText and body. -/
def appendRow (res : HttpResponse) : Except GatewayError Unit :=
  if res.ok then .ok () else .error ⟨res.status, res.statusText, res.body⟩

/-- The `/add` field validation of `src/index.ts` line 149:
`!date || amount == null || !currency || !description || !purpose ||
!account` fails with 400. -/
def validAdd (b : AddBody) : Bool :=
  !falsyStr b.date && b.amount.isSome && !falsyStr b.currency &&
    !falsyStr b.description && !falsyStr b.purpose && !falsyStr b.account

/-- The `POST /add` handler of `src/index.ts` (lines 133-160), given the
backend response to the append request: 400 on missing fields, 200 OK when
`appendRow` succeeds, 500 ERROR when it throws. -/
def postAdd (b : AddBody) (res : HttpResponse) : ApiResponse :=
  if validAdd b then
    match appendRow res with
    | .ok _ => ⟨200, "OK"⟩
    | .error _ => ⟨500, "ERROR"⟩
  else ⟨400, "ERROR"⟩

/-- The two ranges requested by `/lists`. -/
def listRanges (env : Env) : List String :=
  [env.PURPOSE_TAB ++ "!A2:A", env.ACCOUNT_TAB ++ "!A2:A"]

/-- Observable outcome of one `GET /lists` call: HTTP status, the payload
returned (when 200), the list-cache entry afterwards, and how many backend
`batchGet` calls and cache writes were performed. -/
structure ListsStep where
  status : Nat
  payload : Option ListPayload
  cache : Option ListPayload
  batchGetCalls : Nat
  cacheWrites : Nat
deriving DecidableEq

/-- The `GET /lists` handler of `src/index.ts` (lines 106-130). `cache` is
the current list-cache entry; `cacheGetFails` makes the KV read throw (caught
by the handler, yielding 500); the cache write is fire-and-forget via
`waitUntil`, so `cacheWriteFails` only affects the stored entry, never the
response. -/
def getLists (env : Env) (cache : Option ListPayload) (cacheGetFails : Bool)
    (res : HttpResponse) (valueRanges : Option (List ValueRange))
    (cacheWriteFails : Bool) : ListsStep :=
  if cacheGetFails then ⟨500, none, cache, 0, 0⟩
  else match cache with
    | some p => ⟨200, some p, cache, 0, 0⟩
    | none =>
      match batchGet res valueRanges (listRanges env) with
      | .error _ => ⟨500, none, cache, 1, 0⟩
      | .ok cols =>
        let payload : ListPayload := ⟨cols.getD 0 [], cols.getD 1 []⟩
        ⟨200, some payload, if cacheWriteFails then cache else some payload, 1, 1⟩

end IndexTs

namespace Part001

/-- JS truthiness of the `tokenCache.token` slot: `none` models `undefined`,
`some ""` the initial empty string; both are falsy. -/
def truthy : Option String → Bool
  | none => false
  | some s => s ≠ ""

/-- JS subtraction where the left operand may be `NaN` (modelled `none`). -/
def jsSub : Option Int → Int → Option Int
  | none, _ => none
  | some a, b => some (a - b)

/-- JS addition with a possibly-`undefined` right operand: `now + undefined`
is `NaN`, modelled `none`. -/
def jsAdd (a : Int) : Option Int → Option Int
  | none => none
  | some b => some (a + b)

/-- JS `<` where the right operand may be `NaN`: any comparison with `NaN`
is false. -/
def jsLt (a : Int) : Option Int → Bool
  | none => false
  | some b => decide (a < b)

/-- The module-level in-memory token cache of `part_001` line 8:
`let tokenCache = { token: '', exp: 0 }`. The `token` slot becomes
`undefined` (`none`) if an exchange response lacks `access_token`; the `exp`
slot becomes `NaN` (`none`) if it lacks `expires_in`. -/
structure TokenCache where
  token : Option String
  exp : Option Int
deriving DecidableEq

/-- The initial cache value `{ token: '', exp: 0 }`. -/
def initialCache : TokenCache := ⟨some "", some 0⟩

/-- What the token endpoint interaction yields, as observed by the code of
`part_001` lines 135-139: the HTTP success flag (which the code never
inspects), whether `r.json()` resolves, and the two fields of the
unvalidated cast `{ access_token, expires_in }` — each possibly absent. -/
structure ExchangeResponse where
  ok : Bool
  parseOk : Bool
  access_token : Option String
  expires_in : Option Int
deriving DecidableEq

/-- Outcome of one `accessToken` call in `part_001`: the value returned (or
the propagated rejection), the token cache afterwards, and how many upstream
exchange requests were made. -/
structure TokenStep where
  result : Except String (Option String)
  cache : TokenCache
  exchanges : Nat
deriving DecidableEq

/-- `accessToken` of `part_001` (lines 120-143). `now` is in seconds. The
cache hit test is `tokenCache.token && now < tokenCache.exp - 60`. On a miss
the key import/signing may reject (`signOk = false`); otherwise one exchange
is performed: if `r.json()` rejects the error propagates with the cache
unchanged, else `tokenCache = { token: resp.access_token,
exp: now + resp.expires_in }` is stored and `tokenCache.token` returned —
the HTTP status of the exchange response is never checked. -/
def accessToken (cache : TokenCache) (now : Int) (resp : ExchangeResponse)
    (signOk : Bool) : TokenStep :=
  if truthy cache.token && jsLt now (jsSub cache.exp 60) then
    ⟨.ok cache.token, cache, 0⟩
  else if !signOk then
    ⟨.error "key import or signing failed", cache, 0⟩
  else if !resp.parseOk then
    ⟨.error "token response body is not JSON", cache, 1⟩
  else
    let newCache : TokenCache := ⟨resp.access_token, jsAdd now resp.expires_in⟩
    ⟨.ok newCache.token, newCache, 1⟩

/-- The key material handed to `importPKCS8` in `part_001` line 124: the raw
`env.SA_PRIVATE_KEY`, with no escaped-newline normalization. -/
def parsedKeyInput (env : Env) : String :=
  env.SA_PRIVATE_KEY

/-- `batchGet` of `part_001` (lines 79-105): on a non-success response it
logs and returns one empty list per requested range (no throw); a `res.json()`
rejection propagates; a missing `valueRanges` array also degrades to empty
lists; otherwise each range's grid is flattened, unfiltered. -/
def batchGet (res : HttpResponse) (parsed : Except String (Option (List ValueRange)))
    (ranges : List String) : Except String (List (List String)) :=
  if !res.ok then .ok (ranges.map fun _ => [])
  else match parsed with
    | .error e => .error e
    | .ok none => .ok (ranges.map fun _ => [])
    | .ok (some vrs) => .ok (vrs.map fun v => (v.values.getD []).flatten)

/-- The `/lists` filter of `part_001` lines 35-36: `filter(Boolean)` on a
string array keeps exactly the non-empty strings. -/
def filterBoolean (cells : List String) : List String :=
  cells.filter (fun s => s ≠ "")

/-- The `/lists` payload assembly of `part_001` lines 34-37 from the two
fetched columns. -/
def listsPayload (purposes accounts : List String) : ListPayload :=
  ⟨filterBoolean purposes, filterBoolean accounts⟩

/-- `appendRow` of `part_001` (lines 107-117): awaits the fetch (a network
rejection propagates) and ignores the response entirely — no status check,
no throw on a non-success response. -/
def appendRow (fetched : Except String HttpResponse) : Except String Unit :=
  match fetched with
  | .error e => .error e
  | .ok _ => .ok ()

/-- The `POST /add` branch of `part_001` (lines 48-61): no try/catch, so a
rejection becomes a runtime 500; otherwise `json({ status: 'OK' })`. -/
def postAdd (fetched : Except String HttpResponse) : ApiResponse :=
  match appendRow fetched with
  | .ok _ => ⟨200, "OK"⟩
  | .error _ => ⟨500, "ERROR"⟩

end Part001

namespace Part000

/-- `LIST_CACHE_KEY` of `part_000` line 25. -/
def LIST_CACHE_KEY : String := "lists-v1"

/-- `TOKEN_CACHE_KEY` of `part_000` line 26. -/
def TOKEN_CACHE_KEY : String := "token-v1"

/-- A value stored in the single KV namespace of `part_000`: either the
lists payload (under `lists-v1`) or the token record `{ token, expiry }`
(under `token-v1`, expiry in epoch milliseconds). -/
inductive KVValue
  | lists (p : ListPayload)
  | tokenEntry (token : String) (expiry : Int)
deriving DecidableEq

/-- The KV namespace state: a partial map from keys to stored values. -/
def KV : Type := String → Option KVValue

/-- KV `put`. -/
def kvPut (k : String) (v : KVValue) (s : KV) : KV :=
  fun q => if q = k then some v else s q

/-- KV `delete`. -/
def kvDelete (k : String) (s : KV) : KV :=
  fun q => if q = k then none else s q

/-- The cache-hit test of `part_000` lines 33-36: the parsed token record,
if the stored JSON has that shape and `now < cached.expiry - 60000`
(a lists-shaped or absent value never hits: its `expiry` is `undefined`, and
a comparison against `NaN` is false). -/
def tokenHit (kv : KV) (now : Int) : Option String :=
  match kv TOKEN_CACHE_KEY with
  | some (.tokenEntry t e) => if now < e - 60000 then some t else none
  | _ => none

/-- What `jwtClient.authorize()` together with the subsequent credential
reads yields in `part_000` lines 43-45: a rejection, or the possibly-absent
`access_token` and `expiry_date` (epoch ms). -/
structure AuthOutcome where
  access_token : Option String
  expiry_date : Option Int
deriving DecidableEq

/-- Outcome of one `accessToken` call in `part_000`: the returned token or
the propagated error, the KV state afterwards, and how many upstream auth
exchanges were made. -/
structure Step where
  result : Except String String
  kv : KV
  exchanges : Nat

/-- `accessToken` of `part_000` (lines 30-53). `now` is in epoch
milliseconds. On a KV cache hit the token is returned with no network call.
Otherwise `authorize()` runs (a rejection propagates with the KV unchanged);
a missing `access_token` throws before the KV write; on success the record
`{ token, expiry }` with `expiry = expiry_date ?? now + 3600000` is written
under `token-v1` and the token returned. -/
def accessToken (kv : KV) (now : Int) (auth : Except String AuthOutcome) : Step :=
  match tokenHit kv now with
  | some t => ⟨.ok t, kv, 0⟩
  | none =>
    match auth with
    | .error e => ⟨.error e, kv, 1⟩
    | .ok creds =>
      match creds.access_token with
      | none => ⟨.error "Failed to obtain access token", kv, 1⟩
      | some t =>
        let expiry := creds.expiry_date.getD (now + 3600 * 1000)
        ⟨.ok t, kvPut TOKEN_CACHE_KEY (.tokenEntry t expiry) kv, 1⟩

/-- Outcome of one `POST /flush-cache` call in `part_000`: HTTP status and
the KV state afterwards. -/
structure FlushStep where
  status : Nat
  kv : KV

/-- The `POST /flush-cache` handler of `part_000` (lines 158-170): deletes
exactly the key `lists-v1`; if the delete rejects, the catch returns 500 and
the store is unchanged. -/
def flushCache (kv : KV) (deleteFails : Bool) : FlushStep :=
  if deleteFails then ⟨500, kv⟩ else ⟨200, kvDelete LIST_CACHE_KEY kv⟩

/-- The key material handed to the `JWT` constructor in `part_000` line 40:
`env.SA_PRIVATE_KEY.replace(/\\n/g, '\n')`. -/
def preparedKey (env : Env) : String :=
  replaceEscapedNewlines env.SA_PRIVATE_KEY

end Part000

/-- A concrete environment used to instantiate hypotheses at closed inputs. -/
def envEx : Env :=
  ⟨"k", "sheet", "sa@example.com", "PEMKEY", "Tx!A:F", "Purpose", "Account"⟩

/-- A concrete environment whose private key contains literal backslash-`n`
escape sequences. -/
def envEscEx : Env :=
  ⟨"k", "sheet", "sa@example.com", "-----BEGIN\\nKEY\\n-----", "Tx!A:F", "Purpose", "Account"⟩

/-- A concrete, fully populated `/add` body. -/
def addBodyEx : AddBody :=
  ⟨some "2024-01-05", some 12, some "USD", some "Coffee", some "Food", some "Checking"⟩

/-- The empty KV store. -/
def kv0 : Part000.KV := fun _ => none

/-- A KV store holding both a still-valid token record and a lists entry. -/
def kvEx : Part000.KV := fun k =>
  if k = Part000.TOKEN_CACHE_KEY then some (.tokenEntry "T" 100000)
  else if k = Part000.LIST_CACHE_KEY then some (.lists ⟨["Food"], ["Cash"]⟩)
  else none

/-- Prepending a character that does not start a backslash-`n` pair does not
introduce one for `hasEscSeq`. -/
theorem hasEscSeq_cons (c : Char) (xs : List Char)
    (hx : c ≠ '\\' ∨ xs.head? ≠ some 'n') : hasEscSeq (c :: xs) = hasEscSeq xs := by
  cases xs with
  | nil => simp [hasEscSeq]
  | cons e t =>
    by_cases hc : c = '\\'
    · subst hc
      rcases hx with hx | hx
      · exact absurd rfl hx
      · have he : e ≠ 'n' := by simpa using hx
        simp [hasEscSeq, he]
    · simp [hasEscSeq, hc]

/-- The replacement scan never emits a leading literal `n` unless the input
started with one. -/
theorem replaceEscCore_head_ne (d : Char) (r : List Char) (hd : d ≠ 'n') :
    (replaceEscCore (d :: r)).head? ≠ some 'n' := by
  by_cases hdb : d = '\\'
  · subst hdb
    cases r with
    | nil => simp [replaceEscCore]
    | cons e t =>
      by_cases he : e = 'n'
      · subst he; simp [replaceEscCore]
      · simp [replaceEscCore, he]
  · simp [replaceEscCore, hdb, hd]

/-- After `replace(/\\n/g, '\n')` no literal backslash-`n` pair remains:
every escaped newline sequence really was replaced. -/
theorem hasEscSeq_replaceEscCore (l : List Char) :
    hasEscSeq (replaceEscCore l) = false := by
  induction l using replaceEscCore.induct with
  | case1 => rfl
  | case2 rest ih => simpa [replaceEscCore, hasEscSeq] using ih
  | case3 c rest h ih =>
    have hstep : replaceEscCore (c :: rest) = c :: replaceEscCore rest := by
      cases rest with
      | nil => by_cases hcb : c = '\\' <;> simp [replaceEscCore]
      | cons d rest' =>
        by_cases hc : c = '\\'
        · have hd : d ≠ 'n' := fun hdn => h rest' hc (by rw [hdn])
          subst hc; simp [replaceEscCore, hd]
        · simp [replaceEscCore, hc]
    rw [hstep]
    by_cases hc : c = '\\'
    · cases rest with
      | nil => subst hc; simp [replaceEscCore, hasEscSeq]
      | cons d rest' =>
        have hd : d ≠ 'n' := fun hdn => h rest' hc (by rw [hdn])
        rw [hasEscSeq_cons c _ (Or.inr (replaceEscCore_head_ne d rest' hd))]
        exact ih
    · rw [hasEscSeq_cons c _ (Or.inl hc)]
      exact ih

/-- C1 (counterexample): in the draft `part_001`, an append request answered
with a non-success HTTP response (here status 500) raises no error —
`appendRow` succeeds with `()` and `POST /add` returns 200 OK — refuting the
claim that `appendRow` always fails with a `GatewayError` on a non-success
append response and that `/add` never returns 200 when the append fails. -/
theorem c1_counterexample :
    Part001.appendRow (.ok ⟨false, 500, "Internal Server Error", "boom"⟩) = .ok () ∧
    Part001.postAdd (.ok ⟨false, 500, "Internal Server Error", "boom"⟩) = ⟨200, "OK"⟩ := by
  exact ⟨rfl, rfl⟩

/-- C1 (amended): on every non-success append response, the `src/index.ts`
`appendRow` fails with an error carrying the status, statusText and body, and
its `POST /add` handler (on a validated body) returns 500, never 200; the
draft `part_001`, however, never checks the append response status: its
`appendRow` succeeds and its `POST /add` returns 200 OK even when the
backend append failed. -/
theorem c1_append_failure_amended (res : HttpResponse) (b : AddBody)
    (hok : res.ok = false) (hb : IndexTs.validAdd b = true) :
    IndexTs.appendRow res = .error ⟨res.status, res.statusText, res.body⟩ ∧
    IndexTs.postAdd b res = ⟨500, "ERROR"⟩ ∧
    Part001.appendRow (.ok res) = .ok () ∧
    Part001.postAdd (.ok res) = ⟨200, "OK"⟩ := by
  refine ⟨?_, ?_, rfl, rfl⟩ <;>
    simp [IndexTs.appendRow, IndexTs.postAdd, hok, hb]

/-- C1 (witness): the amended statement at a concrete failed response and a
concrete valid body. -/
theorem c1_append_failure_witness :
    IndexTs.appendRow ⟨false, 500, "ISE", "boom"⟩ = .error ⟨500, "ISE", "boom"⟩ ∧
    IndexTs.postAdd addBodyEx ⟨false, 500, "ISE", "boom"⟩ = ⟨500, "ERROR"⟩ ∧
    Part001.appendRow (.ok ⟨false, 500, "ISE", "boom"⟩) = .ok () ∧
    Part001.postAdd (.ok ⟨false, 500, "ISE", "boom"⟩) = ⟨200, "OK"⟩ :=
  c1_append_failure_amended ⟨false, 500, "ISE", "boom"⟩ addBodyEx rfl (by decide)

/-- C5 (counterexample): the draft `part_001` assembles the `/lists` payload
with `filter(Boolean)`, which keeps the whitespace-only cell `"  "`: on the
spec's example column the payload is `["Food", "  ", "Rent"]`, not
`["Food", "Rent"]` — whitespace-only values are not excluded. -/
theorem c5_counterexample :
    (Part001.listsPayload ["Food", "", "  ", "Rent"] ["Food", "", "  ", "Rent"]).purposes
      = ["Food", "  ", "Rent"] ∧
    (Part001.listsPayload ["Food", "", "  ", "Rent"] ["Food", "", "  ", "Rent"]).purposes
      ≠ ["Food", "Rent"] ∧
    jsTrim "  " = "" := by
  decide

/-- C5 (amended): the `src/index.ts` filter keeps exactly the cells whose
trimmed value is non-empty (so empty and whitespace-only cells are excluded)
and preserves relative order (it yields a sublist); on the spec example it
returns `["Food", "Rent"]`. The draft `part_001` keeps exactly the non-empty
cells — whitespace-only cells survive — also preserving relative order. -/
theorem c5_filtering_amended (cells : List String) :
    IndexTs.filterCells ["Food", "", "  ", "Rent"] = ["Food", "Rent"] ∧
    (IndexTs.filterCells cells).Sublist cells ∧
    (∀ s, s ∈ IndexTs.filterCells cells ↔ s ∈ cells ∧ jsTrim s ≠ "") ∧
    (Part001.filterBoolean cells).Sublist cells ∧
    (∀ s, s ∈ Part001.filterBoolean cells ↔ s ∈ cells ∧ s ≠ "") ∧
    Part001.filterBoolean ["Food", "", "  ", "Rent"] = ["Food", "  ", "Rent"] := by
  refine ⟨by decide, List.filter_sublist _, ?_, List.filter_sublist _, ?_, by decide⟩ <;>
    intro s <;> simp [IndexTs.filterCells, Part001.filterBoolean, List.mem_filter]

/-- C6 (counterexample): the draft `part_001` gateway itself degrades a
non-success `batchGet` response (here 403) to one empty sequence per
requested range instead of failing — refuting the claim that the gateway
always fails with a `GatewayError` and leaves degrading to the caller. -/
theorem c6_counterexample :
    Part001.batchGet ⟨false, 403, "Forbidden", "denied"⟩ (.ok none)
      ["Purpose!A2:A", "Account!A2:A"] = .ok [[], []] := by
  rfl

/-- C6 (amended): on a non-success response the `src/index.ts` `batchGet`
fails with an error carrying the response status, statusText and body and
never degrades; the draft `part_001` `batchGet` instead degrades to one
empty sequence per requested range without failing. -/
theorem c6_batchget_error_amended (res : HttpResponse)
    (valueRanges : Option (List ValueRange))
    (parsed : Except String (Option (List ValueRange))) (ranges : List String)
    (hok : res.ok = false) :
    IndexTs.batchGet res valueRanges ranges
      = .error ⟨res.status, res.statusText, res.body⟩ ∧
    Part001.batchGet res parsed ranges = .ok (ranges.map fun _ => []) := by
  constructor <;> simp [IndexTs.batchGet, Part001.batchGet, hok]

/-- C6 (witness): the amended statement at a concrete 403 response. -/
theorem c6_batchget_error_witness :
    IndexTs.batchGet ⟨false, 403, "Forbidden", "denied"⟩ none ["P!A2:A", "A!A2:A"]
      = .error ⟨403, "Forbidden", "denied"⟩ ∧
    Part001.batchGet ⟨false, 403, "Forbidden", "denied"⟩ (.ok none) ["P!A2:A", "A!A2:A"]
      = .ok [[], []] :=
  c6_batchget_error_amended ⟨false, 403, "Forbidden", "denied"⟩ none (.ok none)
    ["P!A2:A", "A!A2:A"] rfl

/-- C2 (counterexample): in the draft `part_001`, a token-endpoint response
with non-success status (`ok = false`) whose body parses as JSON but lacks
both fields raises no error: `accessToken` returns `undefined` and overwrites
the token cache with the partial record `{ token: undefined, exp: NaN }` —
refuting the claim that a non-success token response always fails with a
`TokenExchangeError` and leaves the cache unchanged. -/
theorem c2_counterexample :
    Part001.accessToken Part001.initialCache 100 ⟨false, true, none, none⟩ true
      = ⟨.ok none, ⟨none, none⟩, 1⟩ ∧
    (⟨none, none⟩ : Part001.TokenCache) ≠ Part001.initialCache := by
  decide

/-- C2 (amended): in `part_000`, an `authorize()` failure or a missing
`access_token` raises before any cache write, leaving the KV store
unchanged; in `part_001`, an unparseable body raises with the in-memory
cache unchanged, but the HTTP status is never checked — a non-success
response with a parseable body is stored in the cache (token and expiry
taken from the partial body) and returned without error. -/
theorem c2_token_failure_amended :
    (∀ (kv : Part000.KV) (now : Int) (e : String), Part000.tokenHit kv now = none →
      Part000.accessToken kv now (.error e) = ⟨.error e, kv, 1⟩) ∧
    (∀ (kv : Part000.KV) (now : Int) (ed : Option Int), Part000.tokenHit kv now = none →
      Part000.accessToken kv now (.ok ⟨none, ed⟩)
        = ⟨.error "Failed to obtain access token", kv, 1⟩) ∧
    (∀ (c : Part001.TokenCache) (now : Int) (resp : Part001.ExchangeResponse),
      (Part001.truthy c.token && Part001.jsLt now (Part001.jsSub c.exp 60)) = false →
      resp.parseOk = false →
      Part001.accessToken c now resp true
        = ⟨.error "token response body is not JSON", c, 1⟩) ∧
    (∀ (c : Part001.TokenCache) (now : Int) (tok : Option String) (ei : Option Int),
      (Part001.truthy c.token && Part001.jsLt now (Part001.jsSub c.exp 60)) = false →
      Part001.accessToken c now ⟨false, true, tok, ei⟩ true
        = ⟨.ok tok, ⟨tok, Part001.jsAdd now ei⟩, 1⟩) := by
  refine ⟨?_, ?_, ?_, ?_⟩
  · intro kv now e hmiss
    simp [Part000.accessToken, hmiss]
  · intro kv now ed hmiss
    simp [Part000.accessToken, hmiss]
  · intro c now resp hmiss hparse
    simp [Part001.accessToken, hmiss, hparse]
  · intro c now tok ei hmiss
    simp [Part001.accessToken, hmiss]

/-- C2 (witness): the amended statement at concrete inputs — an empty KV
store, the initial in-memory cache, and concrete failure responses. -/
theorem c2_token_failure_witness :
    Part000.accessToken kv0 5 (.error "boom") = ⟨.error "boom", kv0, 1⟩ ∧
    Part000.accessToken kv0 5 (.ok ⟨none, some 99⟩)
      = ⟨.error "Failed to obtain access token", kv0, 1⟩ ∧
    Part001.accessToken Part001.initialCache 5 ⟨true, false, some "T", some 3600⟩ true
      = ⟨.error "token response body is not JSON", Part001.initialCache, 1⟩ ∧
    Part001.accessToken Part001.initialCache 5 ⟨false, true, some "T", some 3600⟩ true
      = ⟨.ok (some "T"), ⟨some "T", some 3605⟩, 1⟩ :=
  ⟨c2_token_failure_amended.1 kv0 5 "boom" rfl,
   c2_token_failure_amended.2.1 kv0 5 (some 99) rfl,
   c2_token_failure_amended.2.2.1 Part001.initialCache 5 ⟨true, false, some "T", some 3600⟩
     (by decide) rfl,
   c2_token_failure_amended.2.2.2 Part001.initialCache 5 (some "T") (some 3600) (by decide)⟩

/-- C3 (counterexample): a fresh exchange whose response grants
`expires_in = 0` is handed out anyway: from the initial cache at `now = 1000`
the draft `part_001` stores and returns token `"T"` with expiry `1000`, i.e.
zero seconds of remaining validity — refuting the claim that every token the
token cache hands out has at least 60 seconds of remaining validity. -/
theorem c3_counterexample :
    Part001.accessToken Part001.initialCache 1000 ⟨true, true, some "T", some 0⟩ true
      = ⟨.ok (some "T"), ⟨some "T", some 1000⟩, 1⟩ ∧
    ((1000 : Int) - 1000 < 60) := by
  decide

/-- C3 (amended): a token served from the cache always has strictly more
than 60 seconds of remaining validity: with 61 seconds remaining it is
reused with no exchange, and with 59 seconds remaining a new exchange is
triggered (in `part_001`, seconds; in `part_000`, the same boundary in
milliseconds). A freshly exchanged token, however, is handed out whatever
its `expires_in`; it has ≥ 60 seconds of remaining validity only when the
endpoint grants at least 60 seconds. -/
theorem c3_expiry_margin_amended :
    (∀ (tok : String) (e now : Int) (resp : Part001.ExchangeResponse) (s : Bool),
      tok ≠ "" → now < e - 60 →
      Part001.accessToken ⟨some tok, some e⟩ now resp s
        = ⟨.ok (some tok), ⟨some tok, some e⟩, 0⟩ ∧ 60 < e - now) ∧
    (∀ (tok : String) (now : Int) (resp : Part001.ExchangeResponse) (s : Bool),
      tok ≠ "" →
      Part001.accessToken ⟨some tok, some (now + 61)⟩ now resp s
        = ⟨.ok (some tok), ⟨some tok, some (now + 61)⟩, 0⟩) ∧
    (∀ (tok A : String) (now e2 : Int),
      Part001.accessToken ⟨some tok, some (now + 59)⟩ now ⟨true, true, some A, some e2⟩ true
        = ⟨.ok (some A), ⟨some A, some (now + e2)⟩, 1⟩) ∧
    (∀ (A : String) (now e2 : Int), 60 ≤ e2 →
      Part001.accessToken Part001.initialCache now ⟨true, true, some A, some e2⟩ true
        = ⟨.ok (some A), ⟨some A, some (now + e2)⟩, 1⟩ ∧ 60 ≤ (now + e2) - now) ∧
    (∀ (kv : Part000.KV) (t : String) (now : Int),
      Part000.tokenHit (Part000.kvPut Part000.TOKEN_CACHE_KEY (.tokenEntry t (now + 61000)) kv) now
        = some t) ∧
    (∀ (kv : Part000.KV) (t t2 : String) (ed now : Int),
      Part000.tokenHit (Part000.kvPut Part000.TOKEN_CACHE_KEY (.tokenEntry t (now + 59000)) kv) now
        = none ∧
      (Part000.accessToken (Part000.kvPut Part000.TOKEN_CACHE_KEY (.tokenEntry t (now + 59000)) kv)
        now (.ok ⟨some t2, some ed⟩)).exchanges = 1) := by
  refine ⟨?_, ?_, ?_, ?_, ?_, ?_⟩
  · intro tok e now resp s htok hlt
    refine ⟨?_, by omega⟩
    have : (Part001.truthy (some tok) && Part001.jsLt now (Part001.jsSub (some e) 60)) = true := by
      simp [Part001.truthy, Part001.jsLt, Part001.jsSub, htok, hlt]
    simp [Part001.accessToken, this]
  · intro tok now resp s htok
    have : (Part001.truthy (some tok) &&
        Part001.jsLt now (Part001.jsSub (some (now + 61)) 60)) = true := by
      simp [Part001.truthy, Part001.jsLt, Part001.jsSub, htok]
      omega
    simp [Part001.accessToken, this]
  · intro tok A now e2
    have hlt : Part001.jsLt now (Part001.jsSub (some (now + 59)) 60) = false := by
      simp [Part001.jsLt, Part001.jsSub]
    have hcond : (Part001.truthy (some tok) &&
        Part001.jsLt now (Part001.jsSub (some (now + 59)) 60)) = false := by
      rw [hlt, Bool.and_false]
    simp [Part001.accessToken, hcond, Part001.jsAdd]
  · intro A now e2 he
    refine ⟨?_, by omega⟩
    simp [Part001.accessToken, Part001.initialCache, Part001.truthy, Part001.jsAdd]
  · intro kv t now
    simp [Part000.tokenHit, Part000.kvPut, Part000.TOKEN_CACHE_KEY]
  · intro kv t t2 ed now
    have hmiss : Part000.tokenHit
        (Part000.kvPut Part000.TOKEN_CACHE_KEY (.tokenEntry t (now + 59000)) kv) now = none := by
      simp [Part000.tokenHit, Part000.kvPut, Part000.TOKEN_CACHE_KEY]
    exact ⟨hmiss, by simp [Part000.accessToken, hmiss]⟩

/-- C3 (witness): the amended statement at concrete times and tokens. -/
theorem c3_expiry_margin_witness :
    Part001.accessToken ⟨some "T", some 1061⟩ 1000 ⟨true, true, some "B", some 7⟩ false
      = ⟨.ok (some "T"), ⟨some "T", some 1061⟩, 0⟩ ∧
    Part001.accessToken ⟨some "T", some 1059⟩ 1000 ⟨true, true, some "B", some 3600⟩ true
      = ⟨.ok (some "B"), ⟨some "B", some 4600⟩, 1⟩ ∧
    Part000.tokenHit (Part000.kvPut Part000.TOKEN_CACHE_KEY (.tokenEntry "T" 61000) kv0) 0
      = some "T" ∧
    Part000.tokenHit (Part000.kvPut Part000.TOKEN_CACHE_KEY (.tokenEntry "T" 59000) kv0) 0
      = none :=
  ⟨c3_expiry_margin_amended.2.1 "T" 1000 ⟨true, true, some "B", some 7⟩ false (by decide),
   c3_expiry_margin_amended.2.2.1 "T" "B" 1000 3600,
   c3_expiry_margin_amended.2.2.2.2.1 kv0 "T" 0,
   (c3_expiry_margin_amended.2.2.2.2.2 kv0 "T" "X" 11 0).1⟩

/-- C4 (confirmed): from a cold cache, a first `getToken` call at `t0`
performs one upstream exchange and caches token `A` with expiry
`t0 + expires_in`; a second call at any `t1` inside the token's validity
window (`t1 < t0 + expires_in - 60`, i.e. while the cache is VALID with the
60-second margin) returns the same token value with zero exchanges —
whatever response or signing outcome the second call would have seen, so no
network call is made. Exactly one exchange happens across the two calls. -/
theorem c4_token_reuse (t0 t1 e : Int) (A : String)
    (resp2 : Part001.ExchangeResponse) (s2 : Bool)
    (hA : A ≠ "") (h2 : t1 < t0 + e - 60) :
    Part001.accessToken Part001.initialCache t0 ⟨true, true, some A, some e⟩ true
      = ⟨.ok (some A), ⟨some A, some (t0 + e)⟩, 1⟩ ∧
    Part001.accessToken ⟨some A, some (t0 + e)⟩ t1 resp2 s2
      = ⟨.ok (some A), ⟨some A, some (t0 + e)⟩, 0⟩ := by
  constructor
  · simp [Part001.accessToken, Part001.initialCache, Part001.truthy, Part001.jsAdd]
  · have : (Part001.truthy (some A) &&
        Part001.jsLt t1 (Part001.jsSub (some (t0 + e)) 60)) = true := by
      simp [Part001.truthy, Part001.jsLt, Part001.jsSub, hA]
      omega
    simp [Part001.accessToken, this]

/-- C4 (witness): the reuse property at concrete times, with a second-call
response that would have yielded a different token had it been used. -/
theorem c4_token_reuse_witness :
    Part001.accessToken Part001.initialCache 0 ⟨true, true, some "tokA", some 3600⟩ true
      = ⟨.ok (some "tokA"), ⟨some "tokA", some 3600⟩, 1⟩ ∧
    Part001.accessToken ⟨some "tokA", some 3600⟩ 1800 ⟨true, true, some "tokB", some 7⟩ false
      = ⟨.ok (some "tokA"), ⟨some "tokA", some 3600⟩, 0⟩ :=
  c4_token_reuse 0 1800 3600 "tokA" ⟨true, true, some "tokB", some 7⟩ false
    (by decide) (by decide)

/-- C7 (confirmed): starting from a cold list cache, one `GET /lists` call in
`src/index.ts` performs exactly one backend `batchGet` and one cache write
and returns some payload `p`, storing it; a second call that still finds the
entry (i.e. before the 24-hour TTL expires) returns the identical payload
`p` with zero backend calls and zero cache writes, whatever backend response
it would have seen. -/
theorem c7_cache_roundtrip (env : Env) (res : HttpResponse)
    (valueRanges : Option (List ValueRange)) (hok : res.ok = true) :
    ∃ p : ListPayload,
      IndexTs.getLists env none false res valueRanges false = ⟨200, some p, some p, 1, 1⟩ ∧
      ∀ res2 vr2, IndexTs.getLists env (some p) false res2 vr2 false
        = ⟨200, some p, some p, 0, 0⟩ := by
  obtain ⟨ok, st, sx, bd⟩ := res
  cases hok
  exact ⟨_, rfl, fun res2 vr2 => rfl⟩

/-- C7 (witness): the round trip at a concrete environment and a concrete
successful backend response. -/
theorem c7_cache_roundtrip_witness :
    ∃ p : ListPayload,
      IndexTs.getLists envEx none false ⟨true, 200, "OK", ""⟩
        (some [⟨some [["Food"], [""], ["Rent"]]⟩, ⟨some [["Cash"]]⟩]) false
        = ⟨200, some p, some p, 1, 1⟩ ∧
      ∀ res2 vr2, IndexTs.getLists envEx (some p) false res2 vr2 false
        = ⟨200, some p, some p, 0, 0⟩ :=
  c7_cache_roundtrip envEx ⟨true, 200, "OK", ""⟩
    (some [⟨some [["Food"], [""], ["Rent"]]⟩, ⟨some [["Cash"]]⟩]) rfl

/-- C8 (counterexample): with a working cache read, a cold-cache `/lists`
call in `src/index.ts` succeeds with 200; with the same backend response but
a failing cache read, it returns 500 — a cache read failure does abort the
primary operation, which the claim says happens only for `/flush-cache`. -/
theorem c8_counterexample :
    (IndexTs.getLists envEx none false ⟨true, 200, "OK", ""⟩ (some []) false).status = 200 ∧
    (IndexTs.getLists envEx none true ⟨true, 200, "OK", ""⟩ (some []) false).status = 500 := by
  exact ⟨rfl, rfl⟩

/-- C8 (amended): a failure of the asynchronous list-cache *write* never
changes the `/lists` response (status and payload are identical whether or
not the fire-and-forget write fails), and `/flush-cache` reports a delete
failure as 500 and success as 200; but a list-cache *read* failure aborts
`/lists` with a 500 — cache failures are not universally non-fatal outside
`/flush-cache`. -/
theorem c8_cache_failure_amended :
    (∀ (env : Env) (cache : Option ListPayload) (res : HttpResponse)
        (vr : Option (List ValueRange)) (wf : Bool),
      (IndexTs.getLists env cache false res vr wf).status
          = (IndexTs.getLists env cache false res vr false).status ∧
      (IndexTs.getLists env cache false res vr wf).payload
          = (IndexTs.getLists env cache false res vr false).payload) ∧
    (∀ kv : Part000.KV,
      (Part000.flushCache kv true).status = 500 ∧ (Part000.flushCache kv false).status = 200) ∧
    (∀ (env : Env) (cache : Option ListPayload) (res : HttpResponse)
        (vr : Option (List ValueRange)) (wf : Bool),
      (IndexTs.getLists env cache true res vr wf).status = 500) := by
  refine ⟨?_, fun kv => ⟨rfl, rfl⟩, fun env cache res vr wf => rfl⟩
  intro env cache res vr wf
  cases cache with
  | some p => exact ⟨rfl, rfl⟩
  | none =>
    simp only [IndexTs.getLists]
    cases IndexTs.batchGet res vr (IndexTs.listRanges env) with
    | error e => exact ⟨rfl, rfl⟩
    | ok cols => exact ⟨rfl, rfl⟩

/-- C9 (counterexample): on the key-parsing path of the draft `part_001`,
the raw `SA_PRIVATE_KEY` is handed to `importPKCS8` unchanged: for a key
containing literal backslash-`n` sequences, those sequences are still
present at parse time (normalization would have produced a different
string) — refuting the claim that every key-parsing path replaces them
first. -/
theorem c9_counterexample :
    Part001.parsedKeyInput envEscEx = "-----BEGIN\\nKEY\\n-----" ∧
    hasEscSeq (Part001.parsedKeyInput envEscEx).data = true ∧
    replaceEscapedNewlines (Part001.parsedKeyInput envEscEx)
      ≠ Part001.parsedKeyInput envEscEx := by
  decide

/-- C9 (amended): `src/index.ts` and the draft `part_000` both hand the
`JWT` client the normalized key `replace(/\\n/g, '\n')`, and after that
replacement no literal backslash-`n` sequence remains (every escaped newline
really is replaced, as the concrete example shows); the draft `part_001`,
however, passes the raw `SA_PRIVATE_KEY` to `importPKCS8` with no
normalization. -/
theorem c9_key_normalization_amended :
    (∀ env : Env, IndexTs.preparedKey env = replaceEscapedNewlines env.SA_PRIVATE_KEY) ∧
    (∀ env : Env, Part000.preparedKey env = replaceEscapedNewlines env.SA_PRIVATE_KEY) ∧
    (∀ s : String, hasEscSeq (replaceEscapedNewlines s).data = false) ∧
    replaceEscapedNewlines "-----BEGIN\\nKEY\\n-----" = "-----BEGIN\nKEY\n-----" ∧
    (∀ env : Env, Part001.parsedKeyInput env = env.SA_PRIVATE_KEY) := by
  refine ⟨fun env => rfl, fun env => rfl, ?_, by decide, fun env => rfl⟩
  intro s
  exact hasEscSeq_replaceEscCore s.data

/-- C10 (confirmed): `POST /flush-cache` in the draft `part_000` deletes
exactly the key `lists-v1`: the keys are distinct, every other key —
`token-v1` in particular — is unchanged, and after a flush a still-valid
token record still produces a cache hit, so `accessToken` returns it with
zero upstream exchanges: flushing never forces a new token exchange. -/
theorem c10_flush_frame (kv : Part000.KV) (k : String)
    (hk : k ≠ Part000.LIST_CACHE_KEY) :
    Part000.TOKEN_CACHE_KEY ≠ Part000.LIST_CACHE_KEY ∧
    (Part000.flushCache kv false).status = 200 ∧
    (Part000.flushCache kv false).kv k = kv k ∧
    (Part000.flushCache kv false).kv Part000.LIST_CACHE_KEY = none ∧
    (∀ (now : Int) (auth : Except String Part000.AuthOutcome) (t : String),
      Part000.tokenHit kv now = some t →
      Part000.accessToken (Part000.flushCache kv false).kv now auth
        = ⟨.ok t, (Part000.flushCache kv false).kv, 0⟩) := by
  have hkeys : Part000.TOKEN_CACHE_KEY ≠ Part000.LIST_CACHE_KEY := by decide
  have hframe : ∀ q, q ≠ Part000.LIST_CACHE_KEY →
      (Part000.flushCache kv false).kv q = kv q := by
    intro q hq
    simp [Part000.flushCache, Part000.kvDelete, hq]
  refine ⟨hkeys, rfl, hframe k hk, ?_, ?_⟩
  · simp [Part000.flushCache, Part000.kvDelete]
  · intro now auth t hhit
    have hpreserve : Part000.tokenHit (Part000.flushCache kv false).kv now
        = Part000.tokenHit kv now := by
      unfold Part000.tokenHit
      rw [hframe Part000.TOKEN_CACHE_KEY hkeys]
    simp [Part000.accessToken, hpreserve, hhit]

/-- C10 (witness): the frame property at a concrete store holding both a
lists entry and a still-valid token record: the flush removes `lists-v1`,
keeps the `token-v1` record, and the next token request is served from cache
with zero exchanges. -/
theorem c10_flush_frame_witness :
    (Part000.flushCache kvEx false).kv Part000.TOKEN_CACHE_KEY
      = kvEx Part000.TOKEN_CACHE_KEY ∧
    Part000.accessToken (Part000.flushCache kvEx false).kv 0 (.error "down")
      = ⟨.ok "T", (Part000.flushCache kvEx false).kv, 0⟩ :=
  ⟨(c10_flush_frame kvEx Part000.TOKEN_CACHE_KEY (by decide)).2.2.1,
   (c10_flush_frame kvEx Part000.TOKEN_CACHE_KEY (by decide)).2.2.2.2 0 (.error "down") "T"
     (by decide)⟩
